import Mathlib

/-!
Verification development for the mantaflow fluid-cache bridge
(`intern/mantaflow/intern/MANTA_main.cpp`).

The C++ code reads per-frame cache snapshots (grids, particles, meshes,
configuration) through zlib `gzread` calls.  We embed the reading functions
shallowly: a gz file becomes a structured value (magic string, header fields,
payload list), `gzread` of a record sequence becomes list indexing that
consumes the payload in order, and destination `std::vector`s become Lean
lists.  Raw `float` values are never interpreted arithmetically by the reader
(they are only copied byte-for-byte), so float-valued fields are modelled by
an arbitrary type parameter `F`.

The single place where the code does float *arithmetic* on sizes is the
chunk-count computation `(int)(ceil((float)numBuffer / CHUNK))`; that
computation is modelled exactly (IEEE-754 single precision, round to nearest
even) with integer arithmetic below.
-/

namespace MANTA

/-! ### Small list helpers used by the embeddings -/

/-- `substrL l pos len` models C++ `std::string::substr(pos, len)`:
the (clamped) slice of `l` starting at `pos` of length at most `len`. -/
def substrL (l : List Char) (pos len : Nat) : List Char :=
  (l.drop pos).take len

/-- `setAt l i v` models `vec.at(i) = v` for an index known to be in bounds
(`List.set` leaves the list unchanged when out of bounds, which never
happens at the call sites). -/
def setAt (l : List α) (i : Nat) (v : α) : List α := l.set i v

/-- `writeSeg dest start buf n` models the copy loop
`for (j = start; j < start + n; j++, k++) dest.at(j) = buf[k]`. -/
def writeSeg (dest : List α) (start : Nat) (buf : List α) (n : Nat) : List α :=
  match n, buf with
  | 0, _ => dest
  | _ + 1, [] => dest
  | n + 1, b :: bs => writeSeg (setAt dest start b) (start + 1) bs n

/-- `resizeList l n d` models `std::vector::resize(n)`: keep the first `n`
elements, value-initialize (to `d`) any newly created tail elements. -/
def resizeList (l : List α) (n : Nat) (d : α) : List α :=
  l.take n ++ List.replicate (n - l.length) d

/-- `padTake l n junk` : the first `n` elements of `l`, padded with `junk`
when `l` is shorter.  Models the contents of a `malloc`ed chunk buffer after
a `gzread` that returned fewer records than requested: the tail of the
buffer holds unspecified memory, represented by `junk`. -/
def padTake (l : List α) (n : Nat) (junk : α) : List α :=
  l.take n ++ List.replicate (n - l.length) junk

/-! ### The chunk-count computation, modelled exactly

The C++ code computes
`numChunks = (int)(ceil((float)numBuffer / PARTICLE_CHUNK))`
(`PARTICLE_CHUNK = NODE_CHUNK = TRIANGLE_CHUNK = 20000`).
`(float)numBuffer` rounds the `int` to the nearest IEEE-754 single-precision
value (ties to even); the division is again correctly rounded.  We model the
whole computation with exact integer arithmetic. -/

/-- Round-to-nearest (ties to even) integer division: the IEEE rounding of
the exact quotient `a / b` to an integer, for `b > 0`. -/
def rneDiv (a b : Nat) : Nat :=
  let q := a / b
  let r := a % b
  if 2 * r < b then q
  else if b < 2 * r then q + 1
  else if q % 2 = 0 then q else q + 1

/-- Fuel-based floor of the base-2 logarithm of a natural number (valid for
`1 ≤ n < 2 ^ fuel`). -/
def flog2 (fuel : Nat) (n : Nat) : Nat :=
  match fuel with
  | 0 => 0
  | fuel + 1 => if n < 2 then 0 else flog2 fuel (n / 2) + 1

/-- Fuel-based floor of the base-2 logarithm of the positive rational
`u / d` (an integer, possibly negative). -/
def flog2Q (fuel : Nat) (u d : Nat) : Int :=
  match fuel with
  | 0 => 0
  | fuel + 1 =>
    if u < d then flog2Q fuel (2 * u) d - 1
    else if 2 * d ≤ u then flog2Q fuel u (2 * d) + 1
    else 0

/-- `natToF32 n` : the value of the C++ conversion `(float)n` for an `int`
`n ≥ 0` — `n` rounded to 24 significant bits, ties to even. -/
def natToF32 (n : Nat) : Nat :=
  if n ≤ 2 ^ 24 then n
  else
    let e := flog2 64 n - 23
    rneDiv n (2 ^ e) * 2 ^ e

/-- `ceilF32Div u d` : the value of `(int)(ceil(x / (float)d))` where `x` is
the single-precision float with (integer) value `u ≥ 1` and `d ≥ 1` is exactly
representable: the exact quotient `u / d` is rounded to the nearest
single-precision value (24-bit significand, ties to even), then the ceiling
is taken.  Returned as the exact natural number. -/
def ceilF32Div (u d : Nat) : Nat :=
  let L : Int := flog2Q 64 u d
  let e : Int := 23 - L
  if 0 ≤ e then
    let s := 2 ^ e.toNat
    (rneDiv (u * s) d + s - 1) / s
  else
    let s := 2 ^ (-e).toNat
    rneDiv u (d * s) * s

/-- `numChunksCpp chunk n` : the value of
`(int)(ceil((float)n / chunk))` as computed by the C++ code. -/
def numChunksCpp (chunk n : Nat) : Nat :=
  if n = 0 then 0 else ceilF32Div (natToF32 n) chunk

/-- `PARTICLE_CHUNK`, `NODE_CHUNK` and `TRIANGLE_CHUNK` are all `20000`. -/
def PARTICLE_CHUNK : Nat := 20000

/-! ### The chunked read loop

All four chunk loops (`updateParticlesFromUni` for `PB02`/`PD01`,
`updateMeshFromBobj` for vertices/normals/triangles) share the same shape:

```cpp
for (int i = 0; i < numChunks && todo > 0; ++i) {
  readLen = CHUNK;
  if (todo < CHUNK) readLen = todo;
  readBytes = gzread(gzf, buffer, readLen * recSize);
  if (!readBytes) { free; gzclose; return false; }
  readStart = (N - todo); CLAMP(readStart, 0, N);
  readEnd = readStart + readLen; CLAMP(readEnd, 0, N);
  for (j = readStart; j < readEnd; j++, k++) dest.at(j) = buffer[k];
  todo -= readLen;
}
```

`gzread` consumes the payload sequentially, so a full read of `readLen`
records at loop position `N - todo` returns `payload[N-todo .. N-todo+readLen)`.
`gzread` returns `0` exactly when no payload byte is left; a successful
(possibly short) read leaves the tail of `buffer` holding unspecified memory,
modelled by the `junk` parameter.  The loop copies `readLen` records from the
buffer regardless of how many bytes `gzread` actually returned. -/

/-- One run of the chunk loop.  `cl` counts the remaining loop iterations
(initially `numChunks`), `todo` the records still expected (initially `N`).
Returns `false` paired with the partially written destination when a chunk
read returns zero bytes (the C++ `return false` path), otherwise `true`
paired with the final destination. -/
def chunkLoop (C N : Nat) (payload : List α) (junk : α) :
    Nat → Nat → List α → Bool × List α
  | 0, _, dest => (true, dest)
  | _ + 1, 0, dest => (true, dest)
  | cl + 1, todo + 1, dest =>
    let todo' := todo + 1
    let readLen := if todo' < C then todo' else C
    let pos := N - todo'
    let avail := payload.length - pos
    if avail = 0 then (false, dest)
    else
      let buffer := padTake (payload.drop pos) readLen junk
      let readStart := min pos N
      let readEnd := min (readStart + readLen) N
      let dest' := writeSeg dest readStart buffer (readEnd - readStart)
      chunkLoop C N payload junk cl (todo' - readLen) dest'

/-! ### Particle snapshots: `MANTA::updateParticlesFromUni` -/

/-- One record of the base particle system (`MANTA::pData`):
3-float position plus an `int` flag. -/
structure PData (F : Type) where
  pos : F × F × F
  flag : Int
  deriving DecidableEq

/-- One record of particle velocity data (`MANTA::pVel`): a 3-float vector. -/
structure PVel (F : Type) where
  pos : F × F × F
  deriving DecidableEq

/-- The pdata uni header fields that the reader inspects
(`num particles, dimX, dimY, dimZ`, element type, bytes per element; the
build-info string and timestamp are read but never used). -/
structure PartHeader where
  count : Int
  dimX : Int
  dimY : Int
  dimZ : Int
  elementType : Int
  bytesPerElement : Int
  deriving DecidableEq

/-- A particle snapshot file as seen by `updateParticlesFromUni`: the 4-byte
magic, the header, and the payload interpreted at the record granularity of
the branch that consumes it. -/
structure PartUniFile (F : Type) where
  magic : String
  header : PartHeader
  payloadData : List (PData F)
  payloadVel : List (PVel F)
  payloadLife : List F
  deriving DecidableEq

/-- The destination vectors of the particle system selected by
`isSecondarySys` (`mSndParticle*` when true, `mFlipParticle*` otherwise).
The function's effect on the selected system is identical, so the model
carries one copy of the three vectors. -/
structure PartState (F : Type) where
  data : List (PData F)
  vel : List (PVel F)
  life : List F
  deriving DecidableEq

/-- `sizeof(float) * 3 + sizeof(int)` -/
def partSysSize : Int := 16

/-- Shallow embedding of `MANTA::updateParticlesFromUni` (the file was
opened successfully and the magic was read).  `zeroF` is the
value-initialized float `0.0f` used by `std::vector::resize`; `junk*` model
the unspecified contents of the chunk buffer beyond what `gzread`
returned. -/
def updateParticlesFromUni (file : PartUniFile F) (_isSecondarySys isVelData : Bool)
    (zeroF : F) (junkD : PData F) (junkV : PVel F) (junkL : F) (st : PartState F) :
    Bool × PartState F :=
  if file.magic = "PB01" then (false, st)
  else
    let h := file.header
    if ¬(h.bytesPerElement = partSysSize) ∧ h.elementType = 0 then (false, st)
    else if h.count = 0 then (true, st)
    else
      let numParticles := h.count.toNat
      let numChunks := numChunksCpp PARTICLE_CHUNK numParticles
      if file.magic = "PB02" then
        let dest := resizeList st.data numParticles ⟨(zeroF, zeroF, zeroF), 0⟩
        let p :=
          chunkLoop PARTICLE_CHUNK numParticles file.payloadData junkD
            numChunks numParticles dest
        (p.1, { st with data := p.2 })
      else if file.magic = "PD01" ∧ isVelData then
        let dest := resizeList st.vel numParticles ⟨(zeroF, zeroF, zeroF)⟩
        let p :=
          chunkLoop PARTICLE_CHUNK numParticles file.payloadVel junkV
            numChunks numParticles dest
        (p.1, { st with vel := p.2 })
      else if file.magic = "PD01" then
        let dest := resizeList st.life numParticles zeroF
        let p :=
          chunkLoop PARTICLE_CHUNK numParticles file.payloadLife junkL
            numChunks numParticles dest
        (p.1, { st with life := p.2 })
      else (true, st)

/-! ### Grid snapshots: `MANTA::updateGridFromUni` and `updateGridFromRaw` -/

/-- `overwriteN grid payload n` : the destination buffer after
`gzread(gzf, grid, sizeof(float) * n)` when the remaining payload is
`payload`: the first `min n payload.length` floats are overwritten, the rest
of the buffer keeps its previous contents. -/
def overwriteN (grid payload : List α) (n : Nat) : List α :=
  let w := min n payload.length
  payload.take w ++ grid.drop w

/-- The grid uni header fields the reader inspects
(`dimX, dimY, dimZ, gridType`; element type, bytes per element, the fourth
dimension `dimT`, build-info string and timestamp are read but unused). -/
structure GridHeader where
  dimX : Int
  dimY : Int
  dimZ : Int
  gridType : Int
  elementType : Int
  bytesPerElement : Int
  dimT : Int
  deriving DecidableEq

/-- A grid snapshot file as seen by `updateGridFromUni`. -/
structure GridUniFile (F : Type) where
  magic : String
  header : GridHeader
  payload : List F
  deriving DecidableEq

/-- Shallow embedding of `MANTA::updateGridFromUni` (the file was opened
successfully and the magic was read; `grid` is non-null).  `mRes` holds
`(mResX, mResY, mResZ)`, `mResNoise` the noise resolutions. -/
def updateGridFromUni (file : GridUniFile F) (mRes mResNoise : Int × Int × Int)
    (isNoise : Bool) (grid : List F) : Bool × List F :=
  if file.magic = "DDF2" then (false, grid)
  else if file.magic = "MNT1" then (false, grid)
  else if file.magic = "MNT2" then (false, grid)
  else
    let h := file.header
    let resX := if isNoise then mResNoise.1 else mRes.1
    let resY := if isNoise then mResNoise.2.1 else mRes.2.1
    let resZ := if isNoise then mResNoise.2.2 else mRes.2.2
    if h.dimX ≠ resX ∨ h.dimY ≠ resY ∨ h.dimZ ≠ resZ then (false, grid)
    else
      let grid' :=
        if file.magic = "MNT3" then
          overwriteN grid file.payload (h.dimX * h.dimY * h.dimZ).toNat
        else grid
      (true, grid')

/-- Shallow embedding of `MANTA::updateGridFromRaw` (the file was opened
successfully; `grid` is non-null).  The file is a raw dump whose decompressed
contents are `payload` floats.  `debugBuild` distinguishes the two build
modes: `assert(expectedBytes == readBytes)` aborts the process in a debug
build (modelled by `none`) and is compiled out in release.  `some b` is the
function's return value `b` together with the written grid. -/
def updateGridFromRaw (debugBuild : Bool) (file : List F)
    (mRes mResNoise : Int × Int × Int) (isNoise : Bool) (grid : List F) :
    Option (Bool × List F) :=
  let resX := if isNoise then mResNoise.1 else mRes.1
  let resY := if isNoise then mResNoise.2.1 else mRes.2.1
  let resZ := if isNoise then mResNoise.2.2 else mRes.2.2
  let expectedFloats := (resX * resY * resZ).toNat
  let expectedBytes := 4 * expectedFloats
  let readBytes := min (4 * file.length) expectedBytes
  if readBytes = 0 then some (false, grid)
  else
    let grid' := overwriteN grid file expectedFloats
    if debugBuild ∧ ¬(expectedBytes = readBytes) then none
    else some (true, grid')

/-! ### Mesh snapshots: `MANTA::updateMeshFromUni` -/

/-- A mesh `.uni` snapshot as seen by `updateMeshFromUni`: magic, the same
header layout as particle files, and (for the `MD01` branch) a payload of
3-float records. -/
structure MeshUniFile (F : Type) where
  magic : String
  header : PartHeader
  payloadVel : List (PVel F)
  deriving DecidableEq

/-- Shallow embedding of `MANTA::updateMeshFromUni` (file opened, magic
read).  The function only ever writes `mMeshVelocities`, modelled as the
list `mMeshVelocities`.  `zeroF` is the value-initialized float of `resize`;
`junkV` models the stale `fbuffer` contents when a per-element `gzread`
returns no data (the loop does not check the `gzread` return value). -/
def updateMeshFromUni (file : MeshUniFile F) (zeroF : F) (junkV : PVel F)
    (mMeshVelocities : List (PVel F)) : Bool × List (PVel F) :=
  let h := file.header
  if ¬(h.bytesPerElement = partSysSize) ∧ h.elementType = 0 then
    (false, mMeshVelocities)
  else if h.count = 0 then (false, mMeshVelocities)
  else if file.magic = "MB01" then (true, mMeshVelocities)
  else if file.magic = "MD01" then
    let numParticles := h.count.toNat
    let dest := resizeList mMeshVelocities numParticles ⟨(zeroF, zeroF, zeroF)⟩
    (true, (List.range dest.length).map fun i => file.payloadVel.getD i junkV)
  else (true, mMeshVelocities)

/-! ### Configuration snapshots: `writeConfiguration` / `readConfiguration`

`writeConfiguration` emits a fixed sequence of `gzwrite` calls,
`readConfiguration` the matching sequence of `gzread` calls.  The stream is
modelled as a list of sized tokens: one token per written scalar, tagged
`int` or `float`.  A read consumes one token of the matching kind; the
positional matching of kinds and counts models the byte-exact field
layout. -/

/-- One scalar on the configuration stream: a 4-byte `int` or a 4-byte
`float`. -/
inductive CTok (F : Type) where
  | ti : Int → CTok F
  | tf : F → CTok F
  deriving DecidableEq

/-- The fields of `FluidDomainSettings` touched by
`writeConfiguration`/`readConfiguration`.  `obmat` is the 4x4 matrix,
written as 16 floats. -/
structure ConfigS (F : Type) where
  active_fields : Int
  res : Int × Int × Int
  dx : F
  dt : F
  p0 : F × F × F
  p1 : F × F × F
  dp0 : F × F × F
  shift : Int × Int × Int
  obj_shift_f : F × F × F
  obmat : List F
  base_res : Int × Int × Int
  res_min : Int × Int × Int
  res_max : Int × Int × Int
  active_color : F × F × F
  total_cells : Int
  deriving DecidableEq

/-- Emit three ints. -/
def wI3 (v : Int × Int × Int) : List (CTok F) := [.ti v.1, .ti v.2.1, .ti v.2.2]

/-- Emit three floats. -/
def wF3 (v : F × F × F) : List (CTok F) := [.tf v.1, .tf v.2.1, .tf v.2.2]

/-- Shallow embedding of `MANTA::writeConfiguration`: the exact `gzwrite`
sequence of the C++ code (directory handling and `gzopen` omitted). -/
def writeConfiguration (mds : ConfigS F) : List (CTok F) :=
  [CTok.ti mds.active_fields] ++ wI3 mds.res ++ [.tf mds.dx, .tf mds.dt] ++
    wF3 mds.p0 ++ wF3 mds.p1 ++ wF3 mds.dp0 ++ wI3 mds.shift ++
    wF3 mds.obj_shift_f ++ mds.obmat.map CTok.tf ++ wI3 mds.base_res ++
    wI3 mds.res_min ++ wI3 mds.res_max ++ wF3 mds.active_color

/-- Read one int from the stream. -/
def rI : List (CTok F) → Option (Int × List (CTok F))
  | .ti n :: rest => some (n, rest)
  | _ => none

/-- Read one float from the stream. -/
def rF : List (CTok F) → Option (F × List (CTok F))
  | .tf x :: rest => some (x, rest)
  | _ => none

/-- Read three ints. -/
def rI3 (s : List (CTok F)) : Option ((Int × Int × Int) × List (CTok F)) := do
  let (a, s) ← rI s
  let (b, s) ← rI s
  let (c, s) ← rI s
  pure ((a, b, c), s)

/-- Read three floats. -/
def rF3 (s : List (CTok F)) : Option ((F × F × F) × List (CTok F)) := do
  let (a, s) ← rF s
  let (b, s) ← rF s
  let (c, s) ← rF s
  pure ((a, b, c), s)

/-- Read `k` floats. -/
def rFn : Nat → List (CTok F) → Option (List F × List (CTok F))
  | 0, s => some ([], s)
  | k + 1, s => do
    let (x, s) ← rF s
    let (xs, s) ← rFn k s
    pure (x :: xs, s)

/-- Shallow embedding of `MANTA::readConfiguration` (the config file exists
and was opened; `mds` is the domain-settings state before the call).  Note
the second float of the stream — the written `dt` — is read into a local
`dummy` and discarded, so the state keeps its old `dt`; afterwards
`total_cells` is recomputed from the resolution just read. -/
def readConfiguration (stream : List (CTok F)) (mds : ConfigS F) :
    Option (ConfigS F) := do
  let (active_fields, s) ← rI stream
  let (res, s) ← rI3 s
  let (dx, s) ← rF s
  let (_dummy, s) ← rF s
  let (p0, s) ← rF3 s
  let (p1, s) ← rF3 s
  let (dp0, s) ← rF3 s
  let (shift, s) ← rI3 s
  let (obj_shift_f, s) ← rF3 s
  let (obmat, s) ← rFn 16 s
  let (base_res, s) ← rI3 s
  let (res_min, s) ← rI3 s
  let (res_max, s) ← rI3 s
  let (active_color, _s) ← rF3 s
  pure { active_fields, res, dx, dt := mds.dt, p0, p1, dp0, shift,
         obj_shift_f, obmat, base_res, res_min, res_max, active_color,
         total_cells := res.1 * res.2.1 * res.2.2 }

/-- A concrete domain-settings value used to exercise the configuration
round trip (`dt = 5`). -/
def c7w : ConfigS Int :=
  ⟨3, (4, 5, 6), 10, 5, (1, 2, 3), (4, 5, 6), (7, 8, 9), (1, 1, 1),
   (2, 2, 2), [20, 21, 22, 23, 24, 25, 26, 27, 28, 29, 30, 31, 32, 33, 34, 35],
   (4, 5, 6), (0, 0, 0), (4, 5, 6), (1, 0, 0), 120⟩

/-- The domain-settings state before `readConfiguration` (`dt = 7`). -/
def c7r : ConfigS Int :=
  ⟨0, (0, 0, 0), 0, 7, (0, 0, 0), (0, 0, 0), (0, 0, 0), (0, 0, 0),
   (0, 0, 0), [0, 0, 0, 0, 0, 0, 0, 0, 0, 0, 0, 0, 0, 0, 0, 0],
   (0, 0, 0), (0, 0, 0), (0, 0, 0), (0, 0, 0), 0⟩

/-! ### Script-variable substitution: `getRealValue` / `parseLine`

`MANTA::getRealValue(varName, mmd)` is a chain of mutually exclusive
string-equality tests.  `"ID"` is answered before the null check on `mmd`;
with a null `mmd` the function returns `"ERROR - INVALID MODIFIER DATA"`;
each recognized key appends a value formatted from the domain settings to an
`ostringstream`; the final `else` only logs, leaving the stream empty, so an
unknown key yields `""`.  The claims under verification depend on which keys
are recognized, not on the formatted values, so the per-key values are an
oracle parameter `valueOf` over an abstract modifier-data type `M`. -/

/-- The keys recognized by the `else if (varName == "...")` chain of
`MANTA::getRealValue`, transcribed in source order (`"ID"` is handled
separately before the chain). -/
def recognizedKeys : List String :=
  ["USING_SMOKE", "USING_LIQUID", "USING_COLORS", "USING_HEAT", "USING_FIRE",
   "USING_NOISE", "USING_OBSTACLE", "USING_GUIDING", "USING_INVEL",
   "USING_OUTFLOW", "USING_LOG_DISSOLVE", "USING_DISSOLVE", "SOLVER_DIM",
   "DO_OPEN", "BOUND_CONDITIONS", "BOUNDARY_WIDTH", "RES", "RESX", "RESY",
   "RESZ", "FRAME_LENGTH", "CFL", "DT", "TIMESTEPS_MIN", "TIMESTEPS_MAX",
   "TIME_TOTAL", "TIME_PER_FRAME", "VORTICITY", "FLAME_VORTICITY",
   "NOISE_SCALE", "MESH_SCALE", "PARTICLE_SCALE", "NOISE_RESX", "NOISE_RESY",
   "NOISE_RESZ", "MESH_RESX", "MESH_RESY", "MESH_RESZ", "PARTICLE_RESX",
   "PARTICLE_RESY", "PARTICLE_RESZ", "GUIDING_RESX", "GUIDING_RESY",
   "GUIDING_RESZ", "MIN_RESX", "MIN_RESY", "MIN_RESZ", "BASE_RESX",
   "BASE_RESY", "BASE_RESZ", "WLT_STR", "NOISE_POSSCALE", "NOISE_TIMEANIM",
   "COLOR_R", "COLOR_G", "COLOR_B", "BUOYANCY_ALPHA", "BUOYANCY_BETA",
   "DISSOLVE_SPEED", "BURNING_RATE", "FLAME_SMOKE", "IGNITION_TEMP",
   "MAX_TEMP", "FLAME_SMOKE_COLOR_X", "FLAME_SMOKE_COLOR_Y",
   "FLAME_SMOKE_COLOR_Z", "CURRENT_FRAME", "START_FRAME", "END_FRAME",
   "CACHE_DATA_FORMAT", "CACHE_MESH_FORMAT", "CACHE_NOISE_FORMAT",
   "CACHE_PARTICLE_FORMAT", "SIMULATION_METHOD", "FLIP_RATIO",
   "PARTICLE_RANDOMNESS", "PARTICLE_NUMBER", "PARTICLE_MINIMUM",
   "PARTICLE_MAXIMUM", "PARTICLE_RADIUS", "FRACTIONS_THRESHOLD",
   "MESH_CONCAVE_UPPER", "MESH_CONCAVE_LOWER", "MESH_PARTICLE_RADIUS",
   "MESH_SMOOTHEN_POS", "MESH_SMOOTHEN_NEG", "USING_MESH",
   "USING_IMPROVED_MESH", "PARTICLE_BAND_WIDTH", "SNDPARTICLE_TAU_MIN_WC",
   "SNDPARTICLE_TAU_MAX_WC", "SNDPARTICLE_TAU_MIN_TA",
   "SNDPARTICLE_TAU_MAX_TA", "SNDPARTICLE_TAU_MIN_K", "SNDPARTICLE_TAU_MAX_K",
   "SNDPARTICLE_K_WC", "SNDPARTICLE_K_TA", "SNDPARTICLE_K_B",
   "SNDPARTICLE_K_D", "SNDPARTICLE_L_MIN", "SNDPARTICLE_L_MAX",
   "SNDPARTICLE_BOUNDARY_DELETE", "SNDPARTICLE_BOUNDARY_PUSHOUT",
   "SNDPARTICLE_POTENTIAL_RADIUS", "SNDPARTICLE_UPDATE_RADIUS",
   "LIQUID_SURFACE_TENSION", "FLUID_VISCOSITY", "FLUID_DOMAIN_SIZE",
   "SNDPARTICLE_TYPES", "USING_SNDPARTS", "GUIDING_ALPHA", "GUIDING_BETA",
   "GUIDING_FACTOR", "GRAVITY_X", "GRAVITY_Y", "GRAVITY_Z", "CACHE_DIR",
   "CACHE_RESUMABLE", "USING_ADAPTIVETIME", "USING_SPEEDVECTORS",
   "USING_FRACTIONS", "DELETE_IN_OBSTACLE", "USING_DIFFUSION"]

/-- Shallow embedding of `MANTA::getRealValue`.  `M` is the (opaque)
`FluidModifierData`; `valueOf key md` is the string a recognized branch
appends for `key` (the branches format numeric domain fields; no claim
depends on those values). -/
def getRealValue (varName : String) (mCurrentID : Int) (mmd : Option M)
    (valueOf : String → M → String) : String :=
  if varName = "ID" then toString mCurrentID
  else
    match mmd with
    | none => "ERROR - INVALID MODIFIER DATA"
    | some md =>
      if varName ∈ recognizedKeys then valueOf varName md else ""

/-- The `while (currPos < line.size())` loop of `MANTA::parseLine`, with
`fuel = line.size() - currPos` at every call.  State: `edp = end_del + 1`
(`end_del` starts at `-1`), `sdel = start_del`, `reading = readingVar`,
`res` the output accumulator.  On loop exit the code appends
`line.substr(end_del + 1, line.size() - end_del)`. -/
def parseLineGo (line : List Char) (mCurrentID : Int) (mmd : Option M)
    (valueOf : String → M → String) :
    Nat → Nat → Nat → Nat → Bool → List Char → List Char
  | 0, _, edp, _, _, res =>
    res ++ substrL line edp (line.length - edp + 1)
  | fuel + 1, currPos, edp, sdel, reading, res =>
    let c := line.getD currPos ' '
    if c = '$' ∧ reading = false then
      parseLineGo line mCurrentID mmd valueOf fuel (currPos + 1) edp
        (currPos + 1) true (res ++ substrL line edp (currPos - edp))
    else if c = '$' ∧ reading = true then
      parseLineGo line mCurrentID mmd valueOf fuel (currPos + 1) (currPos + 1)
        sdel false
        (res ++ (getRealValue (String.mk (substrL line sdel (currPos - sdel)))
                    mCurrentID mmd valueOf).toList)
    else
      parseLineGo line mCurrentID mmd valueOf fuel (currPos + 1) edp sdel
        reading res

/-- Shallow embedding of `MANTA::parseLine`. -/
def parseLine (line : String) (mCurrentID : Int) (mmd : Option M)
    (valueOf : String → M → String) : String :=
  if line.length = 0 then ""
  else
    String.mk
      (parseLineGo line.data mCurrentID mmd valueOf line.data.length 0 0 0
        false [])

/-! ## C1 : chunked reassembly and the float chunk count

A `PB02` particle snapshot with `N = 33560001` records.  The record count is
chosen so that the conversion `(float)numBuffer` is inexact:
`33560001 = 20000 * 1678 + 1` lies in `[2^25, 2^26)` where single-precision
floats are spaced 4 apart, and it rounds (to nearest, any tie rule) down to
`33560000.0f`, whose quotient by `20000.0f` is exactly `1678.0f`.  The loop
therefore runs 1678 chunks covering records `0 .. 33559999` and never copies
record `33560000`, while the destination was resized to hold `33560001`. -/

/-- The failing snapshot: current-format magic `PB02`, a well-formed header
(`elementType = 0`, `bytesPerElement = 16`) announcing `33560001` records,
and payload `payload`. -/
def c1File (payload : List (PData Int)) : PartUniFile Int :=
  { magic := "PB02"
  , header := { count := 33560001, dimX := 0, dimY := 0, dimZ := 0,
                elementType := 0, bytesPerElement := 16 }
  , payloadData := payload
  , payloadVel := []
  , payloadLife := [] }

/-- The result of reading `c1File payload` into cleared destination vectors
(the callers `updateFlipStructures` / `updateParticleStructures` clear them
before the call). -/
def c1Run (payload : List (PData Int)) : Bool × PartState Int :=
  updateParticlesFromUni (c1File payload) false false (0 : Int)
    ⟨(9, 9, 9), 9⟩ ⟨(9, 9, 9)⟩ 9 ⟨[], [], []⟩

/-! ## Helper lemmas -/

theorem writeSeg_getElem?_of_ge {α : Type} :
    ∀ (buf : List α) (n : Nat) (dest : List α) (start i : Nat),
      start + n ≤ i → (writeSeg dest start buf n)[i]? = dest[i]?
  | buf, 0, dest, _, _, _ => by cases buf <;> rfl
  | [], _ + 1, dest, _, _, _ => rfl
  | b :: bs, n + 1, dest, start, i, h => by
    show (writeSeg (setAt dest start b) (start + 1) bs n)[i]? = dest[i]?
    rw [writeSeg_getElem?_of_ge bs n _ (start + 1) i (by omega)]
    exact List.getElem?_set_ne (by omega)

theorem chunkLoop_snd_getElem?_of_ge {α : Type} (C N : Nat) (payload : List α)
    (junk : α) :
    ∀ (cl todo : Nat) (dest : List α) (i : Nat),
      N - todo + C * cl ≤ i →
      ((chunkLoop C N payload junk cl todo dest).2)[i]? = dest[i]? := by
  intro cl
  induction cl with
  | zero => intro todo dest i _; rfl
  | succ cl ih =>
    intro todo dest i h
    match todo with
    | 0 => rfl
    | todo + 1 =>
      show ((if payload.length - (N - (todo + 1)) = 0 then _ else _ :
              Bool × List α)).2[i]? = dest[i]?
      split
      · rfl
      · set rl := if todo + 1 < C then todo + 1 else C with hrldef
        have hrl : rl ≤ C ∧ rl ≤ todo + 1 := by
          rw [hrldef]; split <;> omega
        have hs1 : min (N - (todo + 1)) N = N - (todo + 1) :=
          Nat.min_eq_left (Nat.sub_le N _)
        have hs2 : min (N - (todo + 1) + rl) N ≤ N - (todo + 1) + rl :=
          Nat.min_le_left _ _
        have hmul : C * (cl + 1) = C * cl + C := by ring
        rw [ih _ _ i (by omega)]
        refine writeSeg_getElem?_of_ge _ _ dest _ i ?_
        rw [hs1]
        omega

theorem chunkLoop_fst_true {α : Type} (C N : Nat) (payload : List α)
    (junk : α) (hN : N ≤ payload.length) :
    ∀ (cl todo : Nat) (dest : List α), todo ≤ N →
      (chunkLoop C N payload junk cl todo dest).1 = true := by
  intro cl
  induction cl with
  | zero => intro todo dest _; rfl
  | succ cl ih =>
    intro todo dest htodo
    match todo with
    | 0 => rfl
    | todo + 1 =>
      show ((if payload.length - (N - (todo + 1)) = 0 then _ else _ :
              Bool × List α)).1 = true
      split
      · omega
      · exact ih _ _ (by omega)

theorem rFn_map_tf {F : Type} :
    ∀ (l : List F) (s : List (CTok F)),
      rFn l.length (List.map CTok.tf l ++ s) = some (l, s)
  | [], _ => rfl
  | x :: xs, s => by
    have step : rFn (x :: xs).length (List.map CTok.tf (x :: xs) ++ s) =
        (rFn xs.length (List.map CTok.tf xs ++ s)).bind
          (fun p => some (x :: p.1, p.2)) := rfl
    rw [step, rFn_map_tf xs s]
    rfl

theorem readCfg_writeCfg_explicit {F : Type} (r : ConfigS F) (af : Int)
    (res : Int × Int × Int) (dx dtv : F) (p0 p1 dp0 : F × F × F)
    (sh : Int × Int × Int) (osf : F × F × F)
    (o0 o1 o2 o3 o4 o5 o6 o7 o8 o9 o10 o11 o12 o13 o14 o15 : F)
    (br rmn rmx : Int × Int × Int) (ac : F × F × F) (tc : Int) :
    readConfiguration (writeConfiguration
      ⟨af, res, dx, dtv, p0, p1, dp0, sh, osf,
       [o0, o1, o2, o3, o4, o5, o6, o7, o8, o9, o10, o11, o12, o13, o14, o15],
       br, rmn, rmx, ac, tc⟩) r =
      some ⟨af, res, dx, r.dt, p0, p1, dp0, sh, osf,
       [o0, o1, o2, o3, o4, o5, o6, o7, o8, o9, o10, o11, o12, o13, o14, o15],
       br, rmn, rmx, ac, res.1 * res.2.1 * res.2.2⟩ := rfl

theorem parseLineGo_zero {M : Type} (line : List Char) (idv : Int)
    (mmd : Option M) (vo : String → M → String) (currPos edp sdel : Nat)
    (reading : Bool) (res : List Char) :
    parseLineGo line idv mmd vo 0 currPos edp sdel reading res =
      res ++ substrL line edp (line.length - edp + 1) := rfl

theorem parseLineGo_skip1 {M : Type} (line : List Char) (idv : Int)
    (mmd : Option M) (vo : String → M → String) (fuel currPos edp sdel : Nat)
    (reading : Bool) (res : List Char) (h : line.getD currPos ' ' ≠ '$') :
    parseLineGo line idv mmd vo (fuel + 1) currPos edp sdel reading res =
      parseLineGo line idv mmd vo fuel (currPos + 1) edp sdel reading res := by
  simp only [parseLineGo]
  rw [if_neg (fun hc => h hc.1), if_neg (fun hc => h hc.1)]

theorem parseLineGo_open {M : Type} (line : List Char) (idv : Int)
    (mmd : Option M) (vo : String → M → String) (fuel currPos edp sdel : Nat)
    (res : List Char) (h : line.getD currPos ' ' = '$') :
    parseLineGo line idv mmd vo (fuel + 1) currPos edp sdel false res =
      parseLineGo line idv mmd vo fuel (currPos + 1) edp (currPos + 1) true
        (res ++ substrL line edp (currPos - edp)) := by
  simp only [parseLineGo]
  rw [if_pos ⟨h, trivial⟩]

theorem parseLineGo_close {M : Type} (line : List Char) (idv : Int)
    (mmd : Option M) (vo : String → M → String) (fuel currPos edp sdel : Nat)
    (res : List Char) (h : line.getD currPos ' ' = '$') :
    parseLineGo line idv mmd vo (fuel + 1) currPos edp sdel true res =
      parseLineGo line idv mmd vo fuel (currPos + 1) (currPos + 1) sdel false
        (res ++ (getRealValue (String.mk (substrL line sdel (currPos - sdel)))
                    idv mmd vo).toList) := by
  simp only [parseLineGo]
  rw [if_neg (fun hc => absurd hc.2 (by decide)), if_pos ⟨h, trivial⟩]

theorem parseLineGo_skip {M : Type} (line : List Char) (idv : Int)
    (mmd : Option M) (vo : String → M → String) :
    ∀ (k fuel currPos edp sdel : Nat) (reading : Bool) (res : List Char),
      (∀ i, i < k → line.getD (currPos + i) ' ' ≠ '$') →
      parseLineGo line idv mmd vo (k + fuel) currPos edp sdel reading res =
        parseLineGo line idv mmd vo fuel (currPos + k) edp sdel reading res := by
  intro k
  induction k with
  | zero =>
    intro fuel currPos edp sdel reading res _
    rw [Nat.zero_add, Nat.add_zero]
  | succ k ih =>
    intro fuel currPos edp sdel reading res h
    rw [show k + 1 + fuel = (k + fuel) + 1 from by omega]
    rw [parseLineGo_skip1 line idv mmd vo (k + fuel) currPos edp sdel reading
      res (by have := h 0 (by omega); rwa [Nat.add_zero] at this)]
    rw [ih fuel (currPos + 1) edp sdel reading res
      (fun i hi => by have := h (i + 1) (by omega)
                      rwa [show currPos + (i + 1) = currPos + 1 + i
                        from by omega] at this)]
    rw [show currPos + 1 + k = currPos + (k + 1) from by omega]

theorem getD_ne_of_all {l : List Char} (h : ∀ c ∈ l, c ≠ '$') (i : Nat) :
    l.getD i ' ' ≠ '$' := by
  rcases Nat.lt_or_ge i l.length with hi | hi
  · rw [l.getD_eq_getElem ' ' hi]
    exact h _ (l.getElem_mem hi)
  · rw [l.getD_eq_default ' ' hi]
    decide

theorem parseLineGo_core_subst {M : Type} (idv : Int) (mmd : Option M)
    (vo : String → M → String) (P NM PO : List Char)
    (hP : ∀ c ∈ P, c ≠ '$') (hNM : ∀ c ∈ NM, c ≠ '$')
    (hPO : ∀ c ∈ PO, c ≠ '$')
    (hkey : getRealValue (String.mk NM) idv mmd vo = "") :
    parseLineGo (P ++ '$' :: (NM ++ '$' :: PO)) idv mmd vo
      (P ++ '$' :: (NM ++ '$' :: PO)).length 0 0 0 false [] = P ++ PO := by
  have hlen : (P ++ '$' :: (NM ++ '$' :: PO)).length =
      P.length + (1 + (NM.length + (1 + PO.length))) := by
    simp [List.length_append, List.length_cons]
    omega
  have g1 : ∀ i, i < P.length →
      (P ++ '$' :: (NM ++ '$' :: PO)).getD (0 + i) ' ' ≠ '$' := by
    intro i hi
    rw [Nat.zero_add, List.getD_append _ _ _ _ hi]
    exact getD_ne_of_all hP i
  have g2 : (P ++ '$' :: (NM ++ '$' :: PO)).getD P.length ' ' = '$' := by
    rw [List.getD_append_right _ _ _ _ (le_refl _), Nat.sub_self]
    rfl
  have g3 : ∀ i, i < NM.length →
      (P ++ '$' :: (NM ++ '$' :: PO)).getD (P.length + 1 + i) ' ' ≠ '$' := by
    intro i hi
    rw [List.getD_append_right _ _ _ _ (by omega),
      show P.length + 1 + i - P.length = i + 1 from by omega,
      List.getD_cons_succ, List.getD_append _ _ _ _ hi]
    exact getD_ne_of_all hNM i
  have g4 : (P ++ '$' :: (NM ++ '$' :: PO)).getD
      (P.length + 1 + NM.length) ' ' = '$' := by
    rw [List.getD_append_right _ _ _ _ (by omega),
      show P.length + 1 + NM.length - P.length = NM.length + 1 from by omega,
      List.getD_cons_succ,
      List.getD_append_right _ _ _ _ (le_refl _), Nat.sub_self]
    rfl
  have g5 : ∀ i, i < PO.length →
      (P ++ '$' :: (NM ++ '$' :: PO)).getD
        (P.length + 1 + NM.length + 1 + i) ' ' ≠ '$' := by
    intro i hi
    rw [List.getD_append_right _ _ _ _ (by omega),
      show P.length + 1 + NM.length + 1 + i - P.length = NM.length + 1 + i + 1
        from by omega,
      List.getD_cons_succ,
      List.getD_append_right _ _ _ _ (by omega),
      show NM.length + 1 + i - NM.length = i + 1 from by omega,
      List.getD_cons_succ]
    exact getD_ne_of_all hPO i
  have s1 : substrL (P ++ '$' :: (NM ++ '$' :: PO)) 0 (P.length - 0) = P := by
    simp only [substrL, List.drop_zero, Nat.sub_zero]
    exact List.take_left P _
  have s2 : substrL (P ++ '$' :: (NM ++ '$' :: PO)) (P.length + 1)
      (P.length + 1 + NM.length - (P.length + 1)) = NM := by
    rw [show P.length + 1 + NM.length - (P.length + 1) = NM.length
      from by omega]
    simp only [substrL]
    have hdrop : (P ++ '$' :: (NM ++ '$' :: PO)).drop (P.length + 1) =
        NM ++ '$' :: PO := by
      rw [show P ++ '$' :: (NM ++ '$' :: PO) =
        (P ++ ['$']) ++ (NM ++ '$' :: PO) from by simp]
      rw [show P.length + 1 = (P ++ ['$']).length from by simp]
      exact List.drop_left _ _
    rw [hdrop]
    exact List.take_left NM _
  have s3 : substrL (P ++ '$' :: (NM ++ '$' :: PO))
      (P.length + 1 + NM.length + 1)
      ((P ++ '$' :: (NM ++ '$' :: PO)).length -
        (P.length + 1 + NM.length + 1) + 1) = PO := by
    simp only [substrL]
    have hdrop : (P ++ '$' :: (NM ++ '$' :: PO)).drop
        (P.length + 1 + NM.length + 1) = PO := by
      rw [show P ++ '$' :: (NM ++ '$' :: PO) =
        ((P ++ ['$']) ++ (NM ++ ['$'])) ++ PO from by simp]
      rw [show P.length + 1 + NM.length + 1 =
        ((P ++ ['$']) ++ (NM ++ ['$'])).length from by simp; omega]
      exact List.drop_left _ _
    rw [hdrop]
    exact List.take_of_length_le (by omega)
  rw [hlen]
  rw [parseLineGo_skip _ idv mmd vo P.length (1 + (NM.length + (1 + PO.length)))
    0 0 0 false [] g1]
  rw [Nat.zero_add]
  rw [show 1 + (NM.length + (1 + PO.length)) =
    (NM.length + (1 + PO.length)) + 1 from by omega]
  rw [parseLineGo_open _ idv mmd vo (NM.length + (1 + PO.length)) P.length 0 0
    [] g2]
  rw [List.nil_append, s1]
  rw [parseLineGo_skip _ idv mmd vo NM.length (1 + PO.length) (P.length + 1) 0
    (P.length + 1) true P g3]
  rw [show 1 + PO.length = (PO.length + 0) + 1 from by omega]
  rw [parseLineGo_close _ idv mmd vo (PO.length + 0) (P.length + 1 + NM.length)
    0 (P.length + 1) P g4]
  rw [s2, hkey]
  rw [show (("" : String)).toList = ([] : List Char) from rfl, List.append_nil]
  rw [parseLineGo_skip _ idv mmd vo PO.length 0 (P.length + 1 + NM.length + 1)
    (P.length + 1 + NM.length + 1) (P.length + 1) false P g5]
  rw [parseLineGo_zero]
  rw [s3]

/-! ## Claim theorems -/

/-- **C1.** The claim states that for every `PB02` particle snapshot with a
positive record count `N` whose payload holds `N` records, the chunked read
loop writes record `j` of the file into element `j` of the destination for
every `j < N`, for *every* `N`.  This theorem evaluates the code at the
failing input `N = 33560001` (any payload of that length whose record
`33560000` is `⟨(1,1,1),1⟩`): the float chunk count comes out as `1678`,
one short of `⌈33560001 / 20000⌉ = 1679`, the function still returns `true`,
yet element `33560000` of the destination holds the value-initialized record
`⟨(0,0,0),0⟩` — not record `33560000` of the file. -/
theorem c1_chunkedRead_dropsFinalRecord (payload : List (PData Int))
    (hlen : payload.length = 33560001)
    (hp : payload[33560000]? = some ⟨(1, 1, 1), 1⟩) :
    numChunksCpp PARTICLE_CHUNK 33560001 = 1678 ∧
    PARTICLE_CHUNK * numChunksCpp PARTICLE_CHUNK 33560001 < 33560001 ∧
    (c1Run payload).1 = true ∧
    (c1Run payload).2.data[33560000]? = some ⟨(0, 0, 0), 0⟩ ∧
    (c1Run payload).2.data[33560000]? ≠ payload[33560000]? := by
  have hnc : numChunksCpp PARTICLE_CHUNK 33560001 = 1678 := by decide
  have hr : c1Run payload =
      ((chunkLoop PARTICLE_CHUNK 33560001 payload ⟨(9, 9, 9), 9⟩
          (numChunksCpp PARTICLE_CHUNK 33560001) 33560001
          (List.replicate 33560001 ⟨(0, 0, 0), 0⟩)).1,
        ⟨(chunkLoop PARTICLE_CHUNK 33560001 payload ⟨(9, 9, 9), 9⟩
          (numChunksCpp PARTICLE_CHUNK 33560001) 33560001
          (List.replicate 33560001 ⟨(0, 0, 0), 0⟩)).2, [], []⟩) := rfl
  have hbound : 33560001 - 33560001 +
      PARTICLE_CHUNK * numChunksCpp PARTICLE_CHUNK 33560001 ≤ 33560000 := by
    rw [hnc]; decide
  have hstep := chunkLoop_snd_getElem?_of_ge PARTICLE_CHUNK 33560001
    payload ⟨(9, 9, 9), 9⟩ (numChunksCpp PARTICLE_CHUNK 33560001)
    33560001 (List.replicate 33560001 ⟨(0, 0, 0), 0⟩) 33560000 hbound
  have h1 := chunkLoop_fst_true PARTICLE_CHUNK 33560001 payload
    (⟨(9, 9, 9), 9⟩ : PData Int) (le_of_eq hlen.symm)
    (numChunksCpp PARTICLE_CHUNK 33560001) 33560001
    (List.replicate 33560001 ⟨(0, 0, 0), 0⟩) (le_refl _)
  have h2 : (List.replicate 33560001
      (⟨(0, 0, 0), 0⟩ : PData Int))[33560000]? = some ⟨(0, 0, 0), 0⟩ := by
    rw [List.getElem?_replicate, if_pos (by norm_num)]
  have hdata : (c1Run payload).2.data[33560000]? = some ⟨(0, 0, 0), 0⟩ :=
    (congrArg (fun r => r.2.data[33560000]?) hr).trans (hstep.trans h2)
  refine ⟨hnc, by decide, (congrArg Prod.fst hr).trans h1, hdata, ?_⟩
  rw [hdata, hp]
  intro hcontra
  exact absurd (Option.some.inj hcontra) (by decide)

/-- Witness for `c1_chunkedRead_dropsFinalRecord` at the concrete payload
`List.replicate 33560001 ⟨(1,1,1),1⟩`. -/
theorem c1_chunkedRead_dropsFinalRecord_witness :
    (List.replicate 33560001 (⟨(1, 1, 1), 1⟩ : PData Int)).length =
      33560001 ∧
    (List.replicate 33560001
      (⟨(1, 1, 1), 1⟩ : PData Int))[33560000]? = some ⟨(1, 1, 1), 1⟩ ∧
    (numChunksCpp PARTICLE_CHUNK 33560001 = 1678 ∧
     PARTICLE_CHUNK * numChunksCpp PARTICLE_CHUNK 33560001 < 33560001 ∧
     (c1Run (List.replicate 33560001 ⟨(1, 1, 1), 1⟩)).1 = true ∧
     (c1Run (List.replicate 33560001
       ⟨(1, 1, 1), 1⟩)).2.data[33560000]? = some ⟨(0, 0, 0), 0⟩ ∧
     (c1Run (List.replicate 33560001 ⟨(1, 1, 1), 1⟩)).2.data[33560000]? ≠
       (List.replicate 33560001 (⟨(1, 1, 1), 1⟩ : PData Int))[33560000]?) :=
  ⟨List.length_replicate _ _,
   by rw [List.getElem?_replicate, if_pos (by norm_num)],
   c1_chunkedRead_dropsFinalRecord _ (List.length_replicate _ _)
     (by rw [List.getElem?_replicate, if_pos (by norm_num)])⟩

/-- **C2.** For every grid snapshot whose header resolution differs from the
expected resolution (`mRes*`, or the noise resolutions when `isNoise`),
`updateGridFromUni` returns `false` and leaves the destination grid buffer
exactly as it was before the call. -/
theorem c2_gridUni_resMismatch_noMutation {F : Type} (file : GridUniFile F)
    (mRes mResNoise : Int × Int × Int) (isNoise : Bool) (grid : List F)
    (hmm : file.header.dimX ≠ (if isNoise then mResNoise.1 else mRes.1) ∨
      file.header.dimY ≠ (if isNoise then mResNoise.2.1 else mRes.2.1) ∨
      file.header.dimZ ≠ (if isNoise then mResNoise.2.2 else mRes.2.2)) :
    updateGridFromUni file mRes mResNoise isNoise grid = (false, grid) := by
  unfold updateGridFromUni
  by_cases h1 : file.magic = "DDF2"
  · rw [if_pos h1]
  · rw [if_neg h1]
    by_cases h2 : file.magic = "MNT1"
    · rw [if_pos h2]
    · rw [if_neg h2]
      by_cases h3 : file.magic = "MNT2"
      · rw [if_pos h3]
      · rw [if_neg h3, if_pos hmm]

/-- Witness for `c2_gridUni_resMismatch_noMutation`: a `MNT3` file announcing
resolution `(1,2,3)` against an expected resolution `(9,9,9)`. -/
theorem c2_gridUni_resMismatch_noMutation_witness :
    ((1 : Int) ≠ (if false then (8, 8, 8) else ((9 : Int), (9 : Int), (9 : Int))).1 ∨
      (2 : Int) ≠ (9 : Int) ∨ (3 : Int) ≠ (9 : Int)) ∧
    updateGridFromUni
      (⟨"MNT3", ⟨1, 2, 3, 0, 1, 4, 0⟩, [42]⟩ : GridUniFile Int)
      (9, 9, 9) (8, 8, 8) false [7, 7] = (false, [7, 7]) :=
  ⟨by decide,
   c2_gridUni_resMismatch_noMutation
     (⟨"MNT3", ⟨1, 2, 3, 0, 1, 4, 0⟩, [42]⟩ : GridUniFile Int)
     (9, 9, 9) (8, 8, 8) false [7, 7] (by decide)⟩

/-- **C3.** A particle snapshot whose header particle count is zero (magic
not the rejected `PB01`, and a header that passes the element-size sanity
check) makes `updateParticlesFromUni` return `true` without writing anything
into the destination particle data, velocity or life vectors. -/
theorem c3_particles_zeroCount_success {F : Type} (file : PartUniFile F)
    (isSecondarySys isVelData : Bool) (zeroF : F) (junkD : PData F)
    (junkV : PVel F) (junkL : F) (st : PartState F)
    (hmagic : file.magic ≠ "PB01")
    (hvalid : file.header.bytesPerElement = partSysSize ∨
      file.header.elementType ≠ 0)
    (hcount : file.header.count = 0) :
    updateParticlesFromUni file isSecondarySys isVelData zeroF junkD junkV
      junkL st = (true, st) := by
  unfold updateParticlesFromUni
  rw [if_neg hmagic, if_neg (by
    intro hcontra
    rcases hvalid with hv | hv
    · exact hcontra.1 hv
    · exact hv hcontra.2), if_pos hcount]

/-- Witness for `c3_particles_zeroCount_success`: a `PB02` snapshot with
zero records and a valid header. -/
theorem c3_particles_zeroCount_success_witness :
    ("PB02" ≠ "PB01") ∧
    ((16 : Int) = partSysSize ∨ (0 : Int) ≠ 0) ∧
    ((0 : Int) = 0) ∧
    updateParticlesFromUni
      (⟨"PB02", ⟨0, 4, 4, 4, 0, 16⟩, [], [], []⟩ : PartUniFile Int)
      true false 0 ⟨(9, 9, 9), 9⟩ ⟨(9, 9, 9)⟩ 9 ⟨[], [], []⟩ =
      (true, ⟨[], [], []⟩) :=
  ⟨by decide, Or.inl (by decide), rfl,
   c3_particles_zeroCount_success
     (⟨"PB02", ⟨0, 4, 4, 4, 0, 16⟩, [], [], []⟩ : PartUniFile Int)
     true false 0 ⟨(9, 9, 9), 9⟩ ⟨(9, 9, 9)⟩ 9 ⟨[], [], []⟩
     (by decide) (Or.inl (by decide)) rfl⟩

/-- **C4.** Deprecated magics are rejected without touching the
destination: `DDF2`, `MNT1` and `MNT2` make `updateGridFromUni` return
`false` with the grid untouched, and `PB01` makes `updateParticlesFromUni`
return `false` with all destination vectors untouched; the deprecated
payload is never reinterpreted. -/
theorem c4_deprecatedMagics_rejected {F : Type} :
    (∀ (file : GridUniFile F) (mRes mResNoise : Int × Int × Int)
       (isNoise : Bool) (grid : List F),
       file.magic = "DDF2" ∨ file.magic = "MNT1" ∨ file.magic = "MNT2" →
       updateGridFromUni file mRes mResNoise isNoise grid = (false, grid)) ∧
    (∀ (file : PartUniFile F) (isSecondarySys isVelData : Bool) (zeroF : F)
       (junkD : PData F) (junkV : PVel F) (junkL : F) (st : PartState F),
       file.magic = "PB01" →
       updateParticlesFromUni file isSecondarySys isVelData zeroF junkD
         junkV junkL st = (false, st)) := by
  constructor
  · intro file mRes mResNoise isNoise grid hdep
    unfold updateGridFromUni
    rcases hdep with h | h | h
    · rw [if_pos h]
    · rw [if_neg (h ▸ (by decide : ("MNT1" : String) ≠ "DDF2")), if_pos h]
    · rw [if_neg (h ▸ (by decide : ("MNT2" : String) ≠ "DDF2")),
        if_neg (h ▸ (by decide : ("MNT2" : String) ≠ "MNT1")), if_pos h]
  · intro file isSecondarySys isVelData zeroF junkD junkV junkL st hdep
    unfold updateParticlesFromUni
    rw [if_pos hdep]

/-- Witness for `c4_deprecatedMagics_rejected`: concrete `MNT2` grid file
and `PB01` particle file. -/
theorem c4_deprecatedMagics_rejected_witness :
    (("MNT2" : String) = "DDF2" ∨ ("MNT2" : String) = "MNT1" ∨
      ("MNT2" : String) = "MNT2") ∧
    updateGridFromUni
      (⟨"MNT2", ⟨4, 4, 4, 0, 1, 4, 0⟩, [1, 2]⟩ : GridUniFile Int)
      (4, 4, 4) (8, 8, 8) false [7] = (false, [7]) ∧
    (("PB01" : String) = "PB01") ∧
    updateParticlesFromUni
      (⟨"PB01", ⟨5, 4, 4, 4, 0, 16⟩, [], [], []⟩ : PartUniFile Int)
      false true 0 ⟨(9, 9, 9), 9⟩ ⟨(9, 9, 9)⟩ 9 ⟨[], [], []⟩ =
      (false, ⟨[], [], []⟩) :=
  ⟨Or.inr (Or.inr rfl),
   (c4_deprecatedMagics_rejected (F := Int)).1
     (⟨"MNT2", ⟨4, 4, 4, 0, 1, 4, 0⟩, [1, 2]⟩ : GridUniFile Int)
     (4, 4, 4) (8, 8, 8) false [7] (Or.inr (Or.inr rfl)),
   rfl,
   (c4_deprecatedMagics_rejected (F := Int)).2
     (⟨"PB01", ⟨5, 4, 4, 4, 0, 16⟩, [], [], []⟩ : PartUniFile Int)
     false true 0 ⟨(9, 9, 9), 9⟩ ⟨(9, 9, 9)⟩ 9 ⟨[], [], []⟩ rfl⟩

/-- **C5 (counterexample).** The claim says that for every magic other than
`MNT3` the call returns `false`.  A file with the unrecognized magic `ABCD`
and a header resolution matching the expected one makes `updateGridFromUni`
return `true` (without reading any payload). -/
theorem c5_unknownMagic_counterexample :
    (⟨"ABCD", ⟨2, 3, 4, 0, 1, 4, 0⟩, [5, 5]⟩ : GridUniFile Int).magic ≠
      "MNT3" ∧
    (updateGridFromUni
      (⟨"ABCD", ⟨2, 3, 4, 0, 1, 4, 0⟩, [5, 5]⟩ : GridUniFile Int)
      (2, 3, 4) (1, 1, 1) false [0, 0]).1 = true := by
  constructor
  · decide
  · rfl

/-- **C5 (amended).** The float payload is read into the grid only when the
magic is `MNT3`: when the magic is none of the deprecated `DDF2`, `MNT1`,
`MNT2` and the header resolution matches the expected one, the call returns
`true`, and the grid receives the payload exactly when the magic is `MNT3` —
any other (unrecognized) magic returns `true` leaving the grid untouched. -/
theorem c5_payloadRead_onlyMNT3 {F : Type} (file : GridUniFile F)
    (mRes mResNoise : Int × Int × Int) (isNoise : Bool) (grid : List F)
    (h1 : file.magic ≠ "DDF2") (h2 : file.magic ≠ "MNT1")
    (h3 : file.magic ≠ "MNT2")
    (hx : file.header.dimX = (if isNoise then mResNoise.1 else mRes.1))
    (hy : file.header.dimY = (if isNoise then mResNoise.2.1 else mRes.2.1))
    (hz : file.header.dimZ = (if isNoise then mResNoise.2.2 else mRes.2.2)) :
    updateGridFromUni file mRes mResNoise isNoise grid =
      (true,
        if file.magic = "MNT3" then
          overwriteN grid file.payload
            (file.header.dimX * file.header.dimY * file.header.dimZ).toNat
        else grid) := by
  unfold updateGridFromUni
  rw [if_neg h1, if_neg h2, if_neg h3,
    if_neg (by push_neg; exact ⟨hx, hy, hz⟩)]

/-- Witness for `c5_payloadRead_onlyMNT3`: an `MNT3` file whose header
matches the expected resolution `(1,1,2)`; the two payload floats land in
the grid. -/
theorem c5_payloadRead_onlyMNT3_witness :
    (("MNT3" : String) ≠ "DDF2") ∧ (("MNT3" : String) ≠ "MNT1") ∧
    (("MNT3" : String) ≠ "MNT2") ∧
    ((1 : Int) = (if false then (5, 5, 5) else ((1 : Int), (1 : Int), (2 : Int))).1) ∧
    updateGridFromUni
      (⟨"MNT3", ⟨1, 1, 2, 0, 1, 4, 0⟩, [8, 9]⟩ : GridUniFile Int)
      (1, 1, 2) (5, 5, 5) false [0, 0] =
      (true,
        if ("MNT3" : String) = "MNT3" then
          overwriteN [0, 0] [8, 9] ((1 : Int) * 1 * 2).toNat
        else [0, 0]) :=
  ⟨by decide, by decide, by decide, rfl,
   c5_payloadRead_onlyMNT3
     (⟨"MNT3", ⟨1, 1, 2, 0, 1, 4, 0⟩, [8, 9]⟩ : GridUniFile Int)
     (1, 1, 2) (5, 5, 5) false [0, 0]
     (by decide) (by decide) (by decide) rfl rfl rfl⟩

/-- **C10.** A mesh `.uni` snapshot whose header vertex count is zero makes
`updateMeshFromUni` return `false` with the destination untouched (whether
or not the header passes the element-size sanity check, since both early
exits return `false`), in contrast to the zero-record success of
`updateParticlesFromUni`. -/
theorem c10_meshUni_zeroVertices_fails {F : Type} (file : MeshUniFile F)
    (zeroF : F) (junkV : PVel F) (mMeshVelocities : List (PVel F))
    (hcount : file.header.count = 0) :
    updateMeshFromUni file zeroF junkV mMeshVelocities =
      (false, mMeshVelocities) := by
  unfold updateMeshFromUni
  by_cases hsane : ¬(file.header.bytesPerElement = partSysSize) ∧
    file.header.elementType = 0
  · rw [if_pos hsane]
  · rw [if_neg hsane, if_pos hcount]

/-- **C6 (counterexample).** The claim says a raw-grid read returning fewer
than the expected `sizeof(float)*resX*resY*resZ` bytes makes
`updateGridFromRaw` return `false`.  In a release build, a file holding one
float against an expected two (4 bytes read, 8 requested) is accepted:
the function returns `true`. -/
theorem c6_rawShortRead_counterexample :
    4 * [(42 : Int)].length < 4 * (((1 : Int) * 1 * 2).toNat) ∧
    updateGridFromRaw false [(42 : Int)] (1, 1, 2) (9, 9, 9) false [0, 0] =
      some (true, [42, 0]) := by
  constructor
  · decide
  · rfl

/-- **C6 (amended).** A read that returns *zero* bytes aborts with `false`;
a nonzero short-fall is not converted to `false`: `updateGridFromRaw`'s
`assert(expectedBytes == readBytes)` aborts only in debug builds, and in a
release build the short read is accepted and the function returns `true`;
the chunk loops of `updateMeshFromBobj`/`updateParticlesFromUni` likewise
abort (with `false`) exactly when a chunk read returns zero bytes. -/
theorem c6_shortfall_behavior {F : Type} (file : List F)
    (mRes mResNoise : Int × Int × Int) (isNoise : Bool) (grid : List F)
    (expectedFloats : Nat)
    (hexp : expectedFloats =
      ((if isNoise then mResNoise.1 else mRes.1) *
       (if isNoise then mResNoise.2.1 else mRes.2.1) *
       (if isNoise then mResNoise.2.2 else mRes.2.2)).toNat) :
    (file.length = 0 ∨ expectedFloats = 0 →
      ∀ debugBuild : Bool,
        updateGridFromRaw debugBuild file mRes mResNoise isNoise grid =
          some (false, grid)) ∧
    (0 < file.length → file.length < expectedFloats →
      updateGridFromRaw true file mRes mResNoise isNoise grid = none) ∧
    (0 < file.length → 0 < expectedFloats →
      updateGridFromRaw false file mRes mResNoise isNoise grid =
        some (true, overwriteN grid file expectedFloats)) ∧
    (∀ (C N : Nat) (payload : List F) (junk : F) (cl todo : Nat)
       (dest : List F), 0 < todo → 0 < cl → payload.length ≤ N - todo →
       chunkLoop C N payload junk cl todo dest = (false, dest)) := by
  refine ⟨?_, ?_, ?_, ?_⟩
  · intro h0 debugBuild
    unfold updateGridFromRaw
    dsimp only
    rw [← hexp, if_pos (by omega)]
  · intro hpos hshort
    unfold updateGridFromRaw
    dsimp only
    rw [← hexp, if_neg (by omega), if_pos ⟨rfl, by omega⟩]
  · intro hpos hepos
    unfold updateGridFromRaw
    dsimp only
    rw [← hexp, if_neg (by omega), if_neg (by simp)]
  · intro C N payload junk cl todo dest htodo hcl havail
    match cl, todo with
    | cl + 1, todo + 1 =>
      show (if payload.length - (N - (todo + 1)) = 0 then _ else _ :
              Bool × List F) = (false, dest)
      rw [if_pos (by omega)]

/-- Witness for `c6_shortfall_behavior` at a concrete expected resolution
`(1,1,2)` (two floats) and a one-float file. -/
theorem c6_shortfall_behavior_witness :
    ((2 : Nat) =
      ((if false then (9, 9, 9) else ((1 : Int), (1 : Int), (2 : Int))).1 *
       (if false then ((9 : Int), (9 : Int), (9 : Int)).2.1
        else ((1 : Int), (1 : Int), (2 : Int)).2.1) *
       (if false then ((9 : Int), (9 : Int), (9 : Int)).2.2
        else ((1 : Int), (1 : Int), (2 : Int)).2.2)).toNat) ∧
    (([(42 : Int)].length = 0 ∨ (2 : Nat) = 0 →
      ∀ debugBuild : Bool,
        updateGridFromRaw debugBuild [(42 : Int)] (1, 1, 2) (9, 9, 9) false
          [0, 0] = some (false, [0, 0])) ∧
     (0 < [(42 : Int)].length → [(42 : Int)].length < 2 →
      updateGridFromRaw true [(42 : Int)] (1, 1, 2) (9, 9, 9) false [0, 0] =
        none) ∧
     (0 < [(42 : Int)].length → 0 < (2 : Nat) →
      updateGridFromRaw false [(42 : Int)] (1, 1, 2) (9, 9, 9) false [0, 0] =
        some (true, overwriteN [0, 0] [42] 2)) ∧
     (∀ (C N : Nat) (payload : List Int) (junk : Int) (cl todo : Nat)
        (dest : List Int), 0 < todo → 0 < cl → payload.length ≤ N - todo →
        chunkLoop C N payload junk cl todo dest = (false, dest))) :=
  ⟨by decide,
   c6_shortfall_behavior [(42 : Int)] (1, 1, 2) (9, 9, 9) false [0, 0] 2
     (by decide)⟩

/-- Witness for `c10_meshUni_zeroVertices_fails`: an `MD01` mesh snapshot
with vertex count `0`. -/
theorem c10_meshUni_zeroVertices_fails_witness :
    ((0 : Int) = 0) ∧
    updateMeshFromUni
      (⟨"MD01", ⟨0, 4, 4, 4, 0, 16⟩, [⟨(1, 2, 3)⟩]⟩ : MeshUniFile Int)
      0 ⟨(9, 9, 9)⟩ [] = (false, []) :=
  ⟨rfl,
   c10_meshUni_zeroVertices_fails
     (⟨"MD01", ⟨0, 4, 4, 4, 0, 16⟩, [⟨(1, 2, 3)⟩]⟩ : MeshUniFile Int)
     0 ⟨(9, 9, 9)⟩ [] rfl⟩

/-- **C7 (counterexample).** The claim says the round trip restores every
written field value into the domain settings.  With `c7w.dt = 5` and a
pre-read state `c7r` whose `dt` is `7`, the `dt` of the settings after
`readConfiguration (writeConfiguration c7w)` is still `7`: the written
timestep is read into a local dummy and discarded, not restored. -/
theorem c7_dt_not_restored_counterexample :
    Option.map ConfigS.dt (readConfiguration (writeConfiguration c7w) c7r) ≠
      some c7w.dt := by
  decide

/-- **C7 (amended).** `readConfiguration` reads back exactly the field
sequence `writeConfiguration` wrote, with identical sizes and order, and
restores every written value into the domain settings *except* the timestep
`dt`, which is read (in its correct position) into a dummy and discarded;
`total_cells` is then recomputed from the restored resolution. -/
theorem c7_roundTrip_restoresAllButDt {F : Type} (w r : ConfigS F)
    (hob : w.obmat.length = 16) :
    readConfiguration (writeConfiguration w) r =
      some { w with
              dt := r.dt
              total_cells := w.res.1 * w.res.2.1 * w.res.2.2 } := by
  obtain ⟨af, res, dx, dt, p0, p1, dp0, sh, osf, ob, br, rmn, rmx, ac, tc⟩ := w
  dsimp only at hob
  rcases ob with _|⟨o0,_|⟨o1,_|⟨o2,_|⟨o3,_|⟨o4,_|⟨o5,_|⟨o6,_|⟨o7,_|⟨o8,_|⟨o9,_|⟨o10,_|⟨o11,_|⟨o12,_|⟨o13,_|⟨o14,_|⟨o15,_|⟨x,tail⟩⟩⟩⟩⟩⟩⟩⟩⟩⟩⟩⟩⟩⟩⟩⟩⟩
  all_goals first
    | (exfalso; simp only [List.length_nil, List.length_cons] at hob; omega)
    | exact readCfg_writeCfg_explicit r af res dx dt p0 p1 dp0 sh osf
        o0 o1 o2 o3 o4 o5 o6 o7 o8 o9 o10 o11 o12 o13 o14 o15 br rmn rmx ac tc

/-- Witness for `c7_roundTrip_restoresAllButDt` at the concrete settings
`c7w`, `c7r`. -/
theorem c7_roundTrip_restoresAllButDt_witness :
    c7w.obmat.length = 16 ∧
    readConfiguration (writeConfiguration c7w) c7r =
      some { c7w with
              dt := c7r.dt
              total_cells := c7w.res.1 * c7w.res.2.1 * c7w.res.2.2 } :=
  ⟨rfl, c7_roundTrip_restoresAllButDt c7w c7r rfl⟩

/-- **C8.** For every variable name that is neither `"ID"` nor in the
recognized substitution-key set, and a non-null modifier data, `getRealValue`
returns the empty string (the final `else` only logs), so `parseLine`
replaces the delimited occurrence `$NAME$` of the unknown key with empty
text instead of failing. -/
theorem c8_unknownKey_emptySubstitution {M : Type} (name pre post : String)
    (idv : Int) (md : M) (vo : String → M → String)
    (hid : name ≠ "ID") (hunk : name ∉ recognizedKeys)
    (hpre : ∀ c ∈ pre.data, c ≠ '$') (hname : ∀ c ∈ name.data, c ≠ '$')
    (hpost : ∀ c ∈ post.data, c ≠ '$') :
    getRealValue name idv (some md) vo = "" ∧
    parseLine (pre ++ "$" ++ name ++ "$" ++ post) idv (some md) vo =
      pre ++ post := by
  have hgr : getRealValue name idv (some md) vo = "" := by
    unfold getRealValue
    rw [if_neg hid]
    show (if name ∈ recognizedKeys then vo name md else "") = ""
    rw [if_neg hunk]
  refine ⟨hgr, ?_⟩
  obtain ⟨pd⟩ := pre
  obtain ⟨nd⟩ := name
  obtain ⟨qd⟩ := post
  have hdata : (String.mk pd ++ "$" ++ String.mk nd ++ "$" ++
      String.mk qd).data = pd ++ '$' :: (nd ++ '$' :: qd) := by
    show (((pd ++ ['$']) ++ nd) ++ ['$']) ++ qd = pd ++ '$' :: (nd ++ '$' :: qd)
    simp
  have hlen0 : ¬((String.mk pd ++ "$" ++ String.mk nd ++ "$" ++
      String.mk qd).length = 0) := by
    show ¬((((pd ++ ['$']) ++ nd) ++ ['$']) ++ qd).length = 0
    simp
  unfold parseLine
  rw [if_neg hlen0]
  rw [hdata]
  have hkey : getRealValue (String.mk nd) idv (some md) vo = "" := hgr
  rw [parseLineGo_core_subst idv (some md) vo pd nd qd hpre hname hpost hkey]
  show String.mk (pd ++ qd) = String.mk (pd ++ qd)
  rfl

/-- Witness for `c8_unknownKey_emptySubstitution`: the unknown key `FOO`
between `a` and `b`. -/
theorem c8_unknownKey_emptySubstitution_witness :
    (("FOO" : String) ≠ "ID") ∧ (("FOO" : String) ∉ recognizedKeys) ∧
    (getRealValue "FOO" 7 (some ()) (fun _ _ => "x") = "" ∧
     parseLine ("a" ++ "$" ++ "FOO" ++ "$" ++ "b") 7 (some ())
       (fun _ _ => "x") = "a" ++ "b") :=
  ⟨by decide, by decide,
   c8_unknownKey_emptySubstitution "FOO" "a" "b" 7 () (fun _ _ => "x")
     (by decide) (by decide) (by decide) (by decide) (by decide)⟩

/-- **C9.** A line containing no occurrence of the delimiter `$` is returned
unchanged by `parseLine`, for every modifier-data argument. -/
theorem c9_parseLine_noDollar_identity {M : Type} (line : String) (idv : Int)
    (mmd : Option M) (vo : String → M → String)
    (h : ∀ c ∈ line.data, c ≠ '$') :
    parseLine line idv mmd vo = line := by
  obtain ⟨d⟩ := line
  unfold parseLine
  by_cases h0 : String.length ⟨d⟩ = 0
  · rw [if_pos h0]
    have hd : d = [] := List.length_eq_zero.mp h0
    rw [hd]
  · rw [if_neg h0]
    have h1 := parseLineGo_skip d idv mmd vo d.length 0 0 0 0 false []
      (fun i _ => by
        rw [Nat.zero_add]
        exact getD_ne_of_all h i)
    have h2 : parseLineGo d idv mmd vo 0 (0 + d.length) 0 0 false [] =
        [] ++ substrL d 0 (d.length - 0 + 1) := by
      rw [Nat.zero_add]
      exact parseLineGo_zero d idv mmd vo d.length 0 0 false []
    have h3 : ([] : List Char) ++ substrL d 0 (d.length - 0 + 1) = d := by
      simp only [List.nil_append, substrL, List.drop_zero, Nat.sub_zero]
      exact List.take_of_length_le (by omega)
    exact congrArg String.mk ((h1.trans h2).trans h3)

/-- Witness for `c9_parseLine_noDollar_identity`: the dollar-free line
`abc`. -/
theorem c9_parseLine_noDollar_identity_witness :
    (∀ c ∈ ("abc" : String).data, c ≠ '$') ∧
    parseLine "abc" 7 (none : Option Unit) (fun _ _ => "x") = "abc" :=
  ⟨by decide,
   c9_parseLine_noDollar_identity "abc" 7 (none : Option Unit)
     (fun _ _ => "x") (by decide)⟩

end MANTA
